import Mathlib

/-!
Verification development for the zeddring device session manager.

This file is a shallow embedding of the parts of the zeddring repository that
the checked properties are about: the SQLite schema and `Database` operations
(`src/zeddring/database.py`), the `RingManager` connection, polling and
historical-sync logic (`src/zeddring/ring_manager.py`), the heart-rate logger
loop (`src/zeddring/hr_logger.py`) and the discovery registration step of the
scanner loop (`src/zeddring/scanner.py` together with
`RingManager._scanner_loop`).

Conventions of the embedding:
  * timestamps are `Nat` ("now" is threaded as an explicit parameter where the
    Python code reads the current clock);
  * SQLite tables are Lean lists of rows kept in insertion order, with the
    `AUTOINCREMENT` id counter carried explicitly (`DB.nextId`);
  * the external device client is an oracle: the outcome of each transport
    operation (connect success, value returned by a read, the historical
    batch) is an explicit argument of the embedded function, so the embedded
    function is the Python control flow evaluated at that outcome;
  * a Python read that raises is `ReadOutcome.raises`, a read returning `None`
    is `ReadOutcome.returns none`.
-/

namespace Zeddring

/-! ### Configuration (src/zeddring/config.py)

`MAX_RETRY_ATTEMPTS = int(os.environ.get('ZEDDRING_MAX_RETRY_ATTEMPTS', 3))`:
we model the default value 3. -/

def MAX_RETRY_ATTEMPTS : Nat := 3

/-! ### Data model (src/zeddring/database.py, init_db)

The `rings` table has columns id, name, mac_address, last_connected,
battery_level, created_at.  It has no `is_mock` column and no last-sync
column.  `RingManager._connect_to_ring` nevertheless probes the row dict with
`'is_mock' in ring_info.keys()`, defaulting to 0; we model the probed value
as an `Option Int` which is `none` for every row this schema can produce
(`RingRow.isMock.getD 0` is the Python expression
`ring_info['is_mock'] if 'is_mock' in ring_info.keys() else 0`). -/

structure RingRow where
  id : Nat
  name : String
  macAddress : String
  lastConnected : Option Nat
  batteryLevel : Option Int
  createdAt : Nat
  isMock : Option Int
deriving DecidableEq

/-- One row of the `heart_rate`, `steps` or `battery` table
(id column omitted: it is never read back by the code under study). -/
structure Sample where
  ringId : Nat
  value : Int
  timestamp : Nat
deriving DecidableEq

/-- The SQLite database: the four tables created by `init_db`, plus the
AUTOINCREMENT counter of the `rings` table. -/
structure DB where
  rings : List RingRow
  heartRate : List Sample
  steps : List Sample
  battery : List Sample
  nextId : Nat
deriving DecidableEq

/-- Embeds `SELECT * FROM rings WHERE id = ?` followed by `fetchone()`. -/
def getRing (db : DB) (ringId : Nat) : Option RingRow :=
  db.rings.find? (fun r => decide (r.id = ringId))

/-- Embeds `SELECT * FROM rings WHERE mac_address = ?` followed by `fetchone()`
(`Database.get_ring_by_mac`). -/
def getRingByMac (db : DB) (mac : String) : Option RingRow :=
  db.rings.find? (fun r => decide (r.macAddress = mac))

/-- Embeds `Database.add_ring(name, mac_address)`: `INSERT INTO rings (name,
mac_address) VALUES (?, ?)`; on `sqlite3.IntegrityError` (the UNIQUE
constraint on mac_address, i.e. exactly when a row with this mac exists)
it instead selects and returns the id of the existing row, leaving the
table unchanged.  Returns the id together with the new database state. -/
def addRing (db : DB) (name mac : String) (now : Nat) : DB × Nat :=
  match getRingByMac db mac with
  | some r => (db, r.id)
  | none =>
    let row : RingRow :=
      { id := db.nextId, name := name, macAddress := mac,
        lastConnected := none, batteryLevel := none, createdAt := now,
        isMock := none }
    ({ db with rings := db.rings ++ [row], nextId := db.nextId + 1 }, db.nextId)

/-- Embeds `Database.update_ring_connection`: `UPDATE rings SET last_connected = ?
WHERE id = ?` with the current time. -/
def updateRingConnection (db : DB) (ringId now : Nat) : DB :=
  { db with rings := db.rings.map (fun r =>
      if r.id = ringId then { r with lastConnected := some now } else r) }

/-- Embeds `Database.add_heart_rate`: `INSERT INTO heart_rate (ring_id, value)
VALUES (?, ?)`; the timestamp column defaults to the current time. -/
def addHeartRate (db : DB) (ringId : Nat) (value : Int) (now : Nat) : DB :=
  { db with heartRate := db.heartRate ++ [⟨ringId, value, now⟩] }

/-- Embeds `Database.add_steps`. -/
def addSteps (db : DB) (ringId : Nat) (value : Int) (now : Nat) : DB :=
  { db with steps := db.steps ++ [⟨ringId, value, now⟩] }

/-- Embeds `Database.add_battery`. -/
def addBattery (db : DB) (ringId : Nat) (value : Int) (now : Nat) : DB :=
  { db with battery := db.battery ++ [⟨ringId, value, now⟩] }

/-- Embeds `Database.update_ring_battery`: `UPDATE rings SET battery_level = ?,
last_connected = CURRENT_TIMESTAMP WHERE id = ?`. -/
def updateRingBattery (db : DB) (ringId : Nat) (lvl : Int) (now : Nat) : DB :=
  { db with rings := db.rings.map (fun r =>
      if r.id = ringId then
        { r with batteryLevel := some lvl, lastConnected := some now } else r) }

/-- Embeds `Database.add_heart_rate_with_timestamp`: insert with an explicit
timestamp (used by historical sync). -/
def addHeartRateWithTimestamp (db : DB) (ringId : Nat) (value : Int) (ts : Nat) : DB :=
  { db with heartRate := db.heartRate ++ [⟨ringId, value, ts⟩] }

/-- Embeds `Database.add_steps_with_timestamp`. -/
def addStepsWithTimestamp (db : DB) (ringId : Nat) (value : Int) (ts : Nat) : DB :=
  { db with steps := db.steps ++ [⟨ringId, value, ts⟩] }

/-- The methods the `Database` class defines (transcribed from
src/zeddring/database.py).  Note that `update_last_sync` is *not* among
them, although `RingManager.sync_historical_data_for_ring` (and
`Ring.sync_historical_data`) call `self.db.update_last_sync(...)`. -/
def dbMethodNames : List String :=
  ["add_ring", "update_ring_connection", "get_rings", "get_ring",
   "get_ring_by_mac", "add_heart_rate", "add_steps", "add_battery",
   "get_heart_rate_data", "get_steps_data", "get_battery_data",
   "remove_ring", "add_or_update_ring", "get_daily_heart_rate_stats",
   "get_daily_steps_stats", "update_ring_battery",
   "add_heart_rate_with_timestamp", "add_steps_with_timestamp",
   "add_battery_with_timestamp"]

/-- Whether `Database` has an `update_last_sync` method.  It does not, so the
attribute access `self.db.update_last_sync` raises `AttributeError` at
runtime. -/
def dbHasUpdateLastSync : Bool := dbMethodNames.contains "update_last_sync"

/-! ### Database.remove_ring (src/zeddring/database.py, lines 260-292)

The four DELETE statements run inside one `BEGIN TRANSACTION` …
`conn.commit()` block; any exception triggers `conn.rollback()` and the
method returns False.  We model the transaction explicitly: the statements
update a working copy, an injected failure index aborts at that statement
(index 4 = failure at commit) and restores the original database. -/

def txRun (orig : DB) (failAt : Option Nat) :
    List (DB → DB) → Nat → DB → DB × Bool
  | [], i, w => if failAt = some i then (orig, false) else (w, true)
  | op :: rest, i, w =>
    if failAt = some i then (orig, false)
    else txRun orig failAt rest (i + 1) (op w)

/-- The four DELETE statements of `remove_ring`, in source order:
heart_rate, steps, battery, then the ring row itself. -/
def removeRingOps (ringId : Nat) : List (DB → DB) :=
  [ fun d => { d with heartRate := d.heartRate.filter (fun s => decide (¬ s.ringId = ringId)) },
    fun d => { d with steps := d.steps.filter (fun s => decide (¬ s.ringId = ringId)) },
    fun d => { d with battery := d.battery.filter (fun s => decide (¬ s.ringId = ringId)) },
    fun d => { d with rings := d.rings.filter (fun r => decide (¬ r.id = ringId)) } ]

/-- Embeds `Database.remove_ring`: run the four deletes transactionally.
`failAt = none` is the exception-free execution; `failAt = some k` injects
an exception at the k-th statement (k = 4: at commit). -/
def removeRing (db : DB) (ringId : Nat) (failAt : Option Nat) : DB × Bool :=
  txRun db failAt (removeRingOps ringId) 0 db

/-! ### String helpers for the manager's checks -/

/-- Prefix test on character lists (first argument is the pattern). -/
def listPre : List Char → List Char → Bool
  | [], _ => true
  | _ :: _, [] => false
  | a :: as, b :: bs => a = b && listPre as bs

/-- Contiguous-occurrence test on character lists (first argument is the
pattern). -/
def listContains (pat : List Char) : List Char → Bool
  | [] => pat.isEmpty
  | c :: rest => listPre pat (c :: rest) || listContains pat rest

/-- Python's `pat in s` substring test. -/
def strContains (s pat : String) : Bool :=
  listContains pat.toList s.toList

/-- The scanner loop's ring-name check (`ring_manager.py`, line 391):
`"Colmi" in device.name or "R02" in device.name`. -/
def isRingName (name : String) : Bool :=
  strContains name "Colmi" || strContains name "R02"

def isHexChar (c : Char) : Bool :=
  ('0' ≤ c && c ≤ '9') || ('A' ≤ c && c ≤ 'F') || ('a' ≤ c && c ≤ 'f')

def isMacSep (c : Char) : Bool := c = ':' || c = '-'

/-- The hardware-address-format check of `_connect_to_ring` (line 546):
`re.match(r'^([0-9A-Fa-f]{2}[:-]){5}([0-9A-Fa-f]{2})$', mac_address)` -
six groups of two hex digits, the first five each followed by `:` or `-`. -/
def isValidMac (s : String) : Bool :=
  match s.toList with
  | [a1, a2, p1, b1, b2, p2, c1, c2, p3, d1, d2, p4, e1, e2, p5, f1, f2] =>
    isHexChar a1 && isHexChar a2 && isMacSep p1 &&
    isHexChar b1 && isHexChar b2 && isMacSep p2 &&
    isHexChar c1 && isHexChar c2 && isMacSep p3 &&
    isHexChar d1 && isHexChar d2 && isMacSep p4 &&
    isHexChar e1 && isHexChar e2 && isMacSep p5 &&
    isHexChar f1 && isHexChar f2
  | _ => false

/-! ### Manager state (src/zeddring/ring_manager.py, RingManager)

`self.clients` is a dict mac address → client object; `self.connected_rings`
a dict mac address → True.  Of a client object the embedded logic observes
which implementation it is (`ColmiClient` or `MockColmiR02Client`) and its
`connected` attribute. -/

inductive ClientKind
  | real
  | mock
deriving DecidableEq

structure Client where
  kind : ClientKind
  connected : Bool
deriving DecidableEq

structure RMState where
  clients : List (String × Client)
  connectedRings : List String
  db : DB
deriving DecidableEq

def lookupClient (cs : List (String × Client)) (mac : String) : Option Client :=
  (cs.find? (fun p => decide (p.1 = mac))).map (fun p => p.2)

def eraseClient (cs : List (String × Client)) (mac : String) : List (String × Client) :=
  cs.filter (fun p => decide (¬ p.1 = mac))

def insertClient (cs : List (String × Client)) (mac : String) (c : Client) :
    List (String × Client) :=
  (mac, c) :: eraseClient cs mac

def insertConnected (l : List String) (mac : String) : List String :=
  mac :: l.filter (fun s => decide (¬ s = mac))

def eraseConnected (l : List String) (mac : String) : List String :=
  l.filter (fun s => decide (¬ s = mac))

/-! ### RingManager._connect_to_ring (lines 507-608)

Oracles: `colmiAvailable` is the module-level `COLMI_CLIENT_AVAILABLE`
flag; `realConnectOk` is true iff constructing `ColmiClient(mac_address)`
and awaiting its `connect()` returns True without raising (both failure
modes return False from `_connect_to_ring` with the state untouched, so one
oracle captures them).  `MockColmiR02Client.connect` (scanner.py, lines
254-258) unconditionally sets `connected = True` and returns True, so the
mock branch's failure arm (lines 565-567) is unreachable and the mock
connection always succeeds.

The third component of the result records which client implementation the
attempt used (`none` when the call returned without attempting any
connection). -/

def connectFresh (st1 : RMState) (mac : String) (ringId : Nat) (isMockVal : Int)
    (colmiAvailable realConnectOk : Bool) (now : Nat) :
    RMState × Bool × Option ClientKind :=
  if isValidMac mac = false ∨ ¬ isMockVal = 0 then
    -- mock path (lines 549-567); mock connect always succeeds
    ({ st1 with
        clients := insertClient st1.clients mac { kind := ClientKind.mock, connected := true },
        connectedRings := insertConnected st1.connectedRings mac,
        db := updateRingConnection st1.db ringId now }, true, some ClientKind.mock)
  else if colmiAvailable = false then
    (st1, false, none)
  else if realConnectOk then
    ({ st1 with
        clients := insertClient st1.clients mac { kind := ClientKind.real, connected := true },
        connectedRings := insertConnected st1.connectedRings mac,
        db := updateRingConnection st1.db ringId now }, true, some ClientKind.real)
  else (st1, false, some ClientKind.real)

def connectToRing (st : RMState) (mac : String) (ringId : Nat)
    (colmiAvailable realConnectOk : Bool) (now : Nat) :
    RMState × Bool × Option ClientKind :=
  match getRing st.db ringId with
  | none => (st, false, none)
  | some info =>
    match lookupClient st.clients mac with
    | some c =>
      if c.connected then (st, true, none)
      else
        -- stale handle: disconnect and drop it, then connect afresh
        connectFresh
          { st with clients := eraseClient st.clients mac,
                    connectedRings := eraseConnected st.connectedRings mac }
          mac ringId (info.isMock.getD 0) colmiAvailable realConnectOk now
    | none =>
      connectFresh st mac ringId (info.isMock.getD 0) colmiAvailable realConnectOk now

/-! ### RingManager.connect_ring (lines 850-892)

The presentation-facing connect path.  It builds a temporary `Ring` object
and calls `Ring.connect`, which - when `COLMI_CLIENT_AVAILABLE` - always
constructs the real `ColmiClient`; there is no MAC-format or mock-flag
routing on this path. -/

def connectRing (st : RMState) (ringId : Nat)
    (colmiAvailable realConnectOk : Bool) (now : Nat) :
    RMState × Bool × Option ClientKind :=
  match getRing st.db ringId with
  | none => (st, false, none)
  | some info =>
    if info.macAddress = "" then (st, false, none)
    else if colmiAvailable = false then (st, false, none)
    else if realConnectOk then
      ({ st with
          clients := insertClient st.clients info.macAddress
            { kind := ClientKind.real, connected := true },
          connectedRings := insertConnected st.connectedRings info.macAddress,
          db := updateRingConnection st.db ringId now }, true, some ClientKind.real)
    else (st, false, some ClientKind.real)

/-! ### The data-collection loop body (lines 444-498)

For a ring whose mac is in `self.clients` the loop reads heart rate, steps
and battery.  Each read sits in its own `try/except` that only logs, so a
failing read is absorbed there; the outer `except` (lines 484-498), which
disconnects and deletes the client handle, is reachable only for failures
outside the three read handlers (event-loop setup/teardown, the dict
lookup), modelled by `setupFail`.  Python truthiness: `if heart_rate and
heart_rate > 0` discards `None`, `0` and non-positive values; `if battery
is not None` keeps a `0` battery. -/

inductive ReadOutcome
  | raises
  | returns (v : Option Int)
deriving DecidableEq

/-- Python truthiness test `if x and x > 0` for `x : int | None`. -/
def pollPositive (r : Option Int) : Bool :=
  match r with
  | none => false
  | some v => decide (¬ v = 0) && decide (0 < v)

def collectForRing (st : RMState) (ringId : Nat) (mac : String)
    (setupFail : Bool) (hr stp bat : ReadOutcome) (now : Nat) : RMState :=
  match lookupClient st.clients mac with
  | none => st
  | some _ =>
    if setupFail then
      -- outer except: disconnect, then `del self.clients[mac_address]`
      -- (connected_rings is not touched on this path)
      { st with clients := eraseClient st.clients mac }
    else
      let db1 := match hr with
        | ReadOutcome.raises => st.db
        | ReadOutcome.returns v =>
          if pollPositive v then addHeartRate st.db ringId (v.getD 0) now else st.db
      let db2 := match stp with
        | ReadOutcome.raises => db1
        | ReadOutcome.returns v =>
          if pollPositive v then addSteps db1 ringId (v.getD 0) now else db1
      let db3 := match bat with
        | ReadOutcome.raises => db2
        | ReadOutcome.returns none => db2
        | ReadOutcome.returns (some b) =>
          updateRingBattery (addBattery db2 ringId b now) ringId b now
      { st with db := db3 }

/-! ### HeartRateLogger._logger_loop per-ring body (hr_logger.py, lines 77-111)

Same zero/absent filtering as the collection loop; battery here is only
appended (`add_battery`), without the `update_ring_battery` call. -/

def hrLoggerStep (db : DB) (ringId : Nat) (hr stp bat : ReadOutcome) (now : Nat) : DB :=
  let db1 := match hr with
    | ReadOutcome.raises => db
    | ReadOutcome.returns v =>
      if pollPositive v then addHeartRate db ringId (v.getD 0) now else db
  let db2 := match stp with
    | ReadOutcome.raises => db1
    | ReadOutcome.returns v =>
      if pollPositive v then addSteps db1 ringId (v.getD 0) now else db1
  let db3 := match bat with
    | ReadOutcome.raises => db2
    | ReadOutcome.returns none => db2
    | ReadOutcome.returns (some b) => addBattery db2 ringId b now
  db3

/-! ### RingManager.sync_historical_data_for_ring (lines 1033-1141)

The historical batch is a dict possibly carrying `steps_history` and
`heart_rate_history` lists of `{timestamp, value}` entries; `hist = none`
models a falsy return (`if not historical_data`).  An entry is written iff
both `entry.get('timestamp')` and `entry.get('value')` are truthy (absent
or zero values are skipped).  There is no duplicate check of any kind:
every usable entry is inserted via `add_steps_with_timestamp` /
`add_heart_rate_with_timestamp`.  When at least one entry was written the
code calls `self.db.update_last_sync(ring_id)`; `Database` has no such
method (`dbHasUpdateLastSync = false`), so the call raises
`AttributeError`, the surrounding `except` swallows it and the method
returns False - after the individual inserts have already committed. -/

structure HEntry where
  timestamp : Option Nat
  value : Option Int
deriving DecidableEq

structure HistData where
  stepsHistory : Option (List HEntry)
  heartRateHistory : Option (List HEntry)
deriving DecidableEq

/-- Python guard `if timestamp and steps:` - both fields present and truthy (nonzero). -/
def entryUsable (e : HEntry) : Bool :=
  (match e.timestamp with
   | none => false
   | some t => decide (¬ t = 0)) &&
  (match e.value with
   | none => false
   | some v => decide (¬ v = 0))

/-- Python guard `if 'steps_history' in historical_data and historical_data['steps_history']:`
followed by the per-entry truthiness filter. -/
def usableEntries (h : Option (List HEntry)) : List HEntry :=
  match h with
  | none => []
  | some l => if l.isEmpty then [] else l.filter entryUsable

/-- The row a usable history entry is inserted as. -/
def entryRow (ringId : Nat) (e : HEntry) : Sample :=
  ⟨ringId, e.value.getD 0, e.timestamp.getD 0⟩

def syncHistoricalDataForRing (st : RMState) (ringId : Nat)
    (colmiAvailable realConnectOk clientHasHist : Bool)
    (hist : Option HistData) (now : Nat) : RMState × Bool :=
  match getRing st.db ringId with
  | none => (st, false)
  | some info =>
    if info.macAddress = "" then (st, false)
    else
      let mac := info.macAddress
      let proceed : RMState → RMState × Bool := fun st1 =>
        if clientHasHist = false then (st1, false)
        else
          match hist with
          | none => (st1, false)
          | some hd =>
            let stepsRows := usableEntries hd.stepsHistory
            let db1 := stepsRows.foldl
              (fun d e => addStepsWithTimestamp d ringId (e.value.getD 0) (e.timestamp.getD 0))
              st1.db
            let hrRows := usableEntries hd.heartRateHistory
            let db2 := hrRows.foldl
              (fun d e => addHeartRateWithTimestamp d ringId (e.value.getD 0) (e.timestamp.getD 0))
              db1
            let syncedData := !stepsRows.isEmpty || !hrRows.isEmpty
            let st2 := { st1 with db := db2 }
            if syncedData then
              -- `self.db.update_last_sync(ring_id)`: the method does not
              -- exist, the AttributeError is caught, the call returns False
              if dbHasUpdateLastSync then (st2, true) else (st2, false)
            else (st2, false)
      match lookupClient st.clients mac with
      | some _ => proceed st
      | none =>
        -- "not connected, attempting to connect..." (lines 1051-1057)
        let r := connectRing st ringId colmiAvailable realConnectOk now
        if r.2.1 then proceed r.1 else (r.1, false)

/-! ### The scanner loop's registration step (lines 384-410)

`scan_for_devices` (scanner.py) returns a list of plain dicts
(`{"address": ..., "name": ..., "rssi": ..., ...}`), yet the loop in
`RingManager._scanner_loop` reads `device.name` and `device.address` as
*attributes*.  Attribute access on a Python dict raises `AttributeError`
for every attribute name (items of a dict are reached by subscription, not
attribute access; the `ColmiDevice` dataclass that would carry these
attributes is defined in scanner.py but is never what `scan_for_devices`
returns).  The per-device `except` handler itself evaluates `device.name`
inside its log f-string and so re-raises; no registration ever happens.
`dictAttr` embeds this semantics; `registerRingDevice` is the registration
body (lines 394-401) that the attribute error makes unreachable. -/

structure ScanEntry where
  name : String
  address : String
deriving DecidableEq

inductive AttrResult
  | ok (s : String)
  | attrError
deriving DecidableEq

/-- Attribute access on the dicts `scan_for_devices` returns: always
`AttributeError`, whatever the attribute name. -/
def dictAttr (_d : ScanEntry) (_attr : String) : AttrResult :=
  AttrResult.attrError

/-- Lines 394-401: `get_ring_by_mac`, then `add_ring` when absent, else
reuse the existing row's id. -/
def registerRingDevice (db : DB) (name address : String) (now : Nat) : DB × Nat :=
  match getRingByMac db address with
  | none => addRing db name address now
  | some r => (db, r.id)

/-- One iteration of the device loop in `_scanner_loop` for one scan result
entry: returns the database state and the registered ring id, if any. -/
def scannerProcessDevice (db : DB) (d : ScanEntry) (now : Nat) : DB × Option Nat :=
  match dictAttr d "name" with
  | AttrResult.attrError => (db, none)
  | AttrResult.ok nm =>
    if isRingName nm then
      match dictAttr d "address" with
      | AttrResult.attrError => (db, none)
      | AttrResult.ok addr =>
        let r := registerRingDevice db nm addr now
        (r.1, some r.2)
    else (db, none)

/-! ### Concrete fixtures used by the closed theorems -/

/-- A device record with a hardware-format MAC address and, as the schema
forces, no mock flag. -/
def rowValid : RingRow :=
  { id := 1, name := "Test Ring", macAddress := "00:11:22:33:44:55",
    lastConnected := none, batteryLevel := none, createdAt := 0, isMock := none }

def dbValid : DB := { rings := [rowValid], heartRate := [], steps := [], battery := [], nextId := 2 }

/-- Manager state holding `rowValid` with no connected client. -/
def stDisc : RMState := { clients := [], connectedRings := [], db := dbValid }

/-- A device record whose address is not in hardware MAC format. -/
def rowMock : RingRow :=
  { id := 2, name := "Mock Ring", macAddress := "mock-ring-1",
    lastConnected := none, batteryLevel := none, createdAt := 0, isMock := none }

def dbMock : DB := { rings := [rowMock], heartRate := [], steps := [], battery := [], nextId := 3 }

def stMock : RMState := { clients := [], connectedRings := [], db := dbMock }

/-- State `stDisc` with a connected simulated client for `rowValid`. -/
def stConn : RMState :=
  { clients := [("00:11:22:33:44:55", { kind := ClientKind.mock, connected := true })],
    connectedRings := ["00:11:22:33:44:55"], db := dbValid }

/-- State `stDisc` with a connected real client for `rowValid`. -/
def stRealConn : RMState :=
  { clients := [("00:11:22:33:44:55", { kind := ClientKind.real, connected := true })],
    connectedRings := ["00:11:22:33:44:55"], db := dbValid }

/-- Historical batch with a single steps entry. -/
def hdOne : HistData :=
  { stepsHistory := some [{ timestamp := some 100, value := some 50 }],
    heartRateHistory := none }

/-- Historical batch with five steps entries and three heart-rate entries,
all with distinct timestamps and nonzero values. -/
def hdBatch : HistData :=
  { stepsHistory := some
      [{ timestamp := some 101, value := some 10 },
       { timestamp := some 102, value := some 20 },
       { timestamp := some 103, value := some 30 },
       { timestamp := some 104, value := some 40 },
       { timestamp := some 105, value := some 50 }],
    heartRateHistory := some
      [{ timestamp := some 201, value := some 60 },
       { timestamp := some 202, value := some 61 },
       { timestamp := some 203, value := some 62 }]}

def dbEmpty : DB := { rings := [], heartRate := [], steps := [], battery := [], nextId := 1 }

/-! ### Statement helpers: the rows a polling iteration appends -/

/-- The heart-rate/steps rows one read outcome contributes: a single row when
the read returned a positive value, nothing otherwise. -/
def posAppend (ringId : Nat) (r : ReadOutcome) (now : Nat) : List Sample :=
  match r with
  | ReadOutcome.raises => []
  | ReadOutcome.returns v => if pollPositive v then [⟨ringId, v.getD 0, now⟩] else []

/-- The battery rows one read outcome contributes: a single row whenever the
read returned any value at all (zero included), nothing on `None` or a
transport failure. -/
def batAppend (ringId : Nat) (r : ReadOutcome) (now : Nat) : List Sample :=
  match r with
  | ReadOutcome.raises => []
  | ReadOutcome.returns none => []
  | ReadOutcome.returns (some b) => [⟨ringId, b, now⟩]

/-! ### Helper lemmas -/

@[simp] lemma addHeartRate_heartRate (d : DB) (r : Nat) (v : Int) (t : Nat) :
    (addHeartRate d r v t).heartRate = d.heartRate ++ [⟨r, v, t⟩] := rfl

@[simp] lemma addHeartRate_steps (d : DB) (r : Nat) (v : Int) (t : Nat) :
    (addHeartRate d r v t).steps = d.steps := rfl

@[simp] lemma addHeartRate_battery (d : DB) (r : Nat) (v : Int) (t : Nat) :
    (addHeartRate d r v t).battery = d.battery := rfl

@[simp] lemma addSteps_heartRate (d : DB) (r : Nat) (v : Int) (t : Nat) :
    (addSteps d r v t).heartRate = d.heartRate := rfl

@[simp] lemma addSteps_steps (d : DB) (r : Nat) (v : Int) (t : Nat) :
    (addSteps d r v t).steps = d.steps ++ [⟨r, v, t⟩] := rfl

@[simp] lemma addSteps_battery (d : DB) (r : Nat) (v : Int) (t : Nat) :
    (addSteps d r v t).battery = d.battery := rfl

@[simp] lemma addBattery_heartRate (d : DB) (r : Nat) (v : Int) (t : Nat) :
    (addBattery d r v t).heartRate = d.heartRate := rfl

@[simp] lemma addBattery_steps (d : DB) (r : Nat) (v : Int) (t : Nat) :
    (addBattery d r v t).steps = d.steps := rfl

@[simp] lemma addBattery_battery (d : DB) (r : Nat) (v : Int) (t : Nat) :
    (addBattery d r v t).battery = d.battery ++ [⟨r, v, t⟩] := rfl

@[simp] lemma updateRingBattery_heartRate (d : DB) (r : Nat) (v : Int) (t : Nat) :
    (updateRingBattery d r v t).heartRate = d.heartRate := rfl

@[simp] lemma updateRingBattery_steps (d : DB) (r : Nat) (v : Int) (t : Nat) :
    (updateRingBattery d r v t).steps = d.steps := rfl

@[simp] lemma updateRingBattery_battery (d : DB) (r : Nat) (v : Int) (t : Nat) :
    (updateRingBattery d r v t).battery = d.battery := rfl

/-- Running `find?` over an append skips a list in which nothing matches. -/
lemma find?_append_of_none {α : Type} (p : α → Bool) (l1 l2 : List α)
    (h : l1.find? p = none) : (l1 ++ l2).find? p = l2.find? p := by
  induction l1 with
  | nil => simp
  | cons a t ih =>
    rw [List.find?_eq_none] at h
    have hpa : p a = false := by
      have hna := h a (by simp)
      cases hq : p a
      · rfl
      · exact absurd hq hna
    have ht : t.find? p = none := by
      rw [List.find?_eq_none]
      intro x hx
      exact h x (by simp [hx])
    rw [List.cons_append, List.find?_cons_of_neg _ (by simp [hpa]), ih ht]

/-- The steps-history insertion fold of `syncHistoricalDataForRing` equals a
single record update appending the corresponding rows. -/
lemma stepsFold_eq (rid : Nat) :
    ∀ (l : List HEntry) (d : DB),
      l.foldl (fun d e => addStepsWithTimestamp d rid (e.value.getD 0) (e.timestamp.getD 0)) d
        = { d with steps := d.steps ++ l.map (entryRow rid) }
  | [], d => by simp
  | e :: rest, d => by
    rw [List.foldl_cons, stepsFold_eq rid rest]
    simp [addStepsWithTimestamp, entryRow]

/-- The heart-rate-history insertion fold of `syncHistoricalDataForRing`
equals a single record update appending the corresponding rows. -/
lemma hrFold_eq (rid : Nat) :
    ∀ (l : List HEntry) (d : DB),
      l.foldl (fun d e => addHeartRateWithTimestamp d rid (e.value.getD 0) (e.timestamp.getD 0)) d
        = { d with heartRate := d.heartRate ++ l.map (entryRow rid) }
  | [], d => by simp
  | e :: rest, d => by
    rw [List.foldl_cons, hrFold_eq rid rest]
    simp [addHeartRateWithTimestamp, entryRow]

/-- When the session already holds a client for the ring's address,
`syncHistoricalDataForRing` with a usable-capable client and a present batch
appends exactly the usable entries of the batch - with their carried
timestamps - and returns False (the `update_last_sync` attribute error). -/
lemma sync_connected_eq (st : RMState) (ringId : Nat) (info : RingRow)
    (cav rok : Bool) (hd : HistData) (now : Nat) (c : Client)
    (hring : getRing st.db ringId = some info)
    (hmac : ¬ info.macAddress = "")
    (hcl : lookupClient st.clients info.macAddress = some c) :
    syncHistoricalDataForRing st ringId cav rok true (some hd) now
      = ({ st with db := { st.db with
            steps := st.db.steps ++ (usableEntries hd.stepsHistory).map (entryRow ringId),
            heartRate := st.db.heartRate ++ (usableEntries hd.heartRateHistory).map (entryRow ringId) } },
         false) := by
  unfold syncHistoricalDataForRing
  simp [hring, hcl, hmac, stepsFold_eq, hrFold_eq, dbHasUpdateLastSync, dbMethodNames]

/-- Every failure branch of `connectRing` leaves the manager state unchanged
and reports failure. -/
lemma connectRing_fail (st : RMState) (ringId : Nat) (cav rok : Bool) (now : Nat)
    (h : cav = false ∨ rok = false) :
    (connectRing st ringId cav rok now).1 = st
    ∧ (connectRing st ringId cav rok now).2.1 = false := by
  unfold connectRing
  cases hg : getRing st.db ringId with
  | none => exact ⟨rfl, rfl⟩
  | some info =>
    by_cases hm : info.macAddress = ""
    · simp [hm]
    · rcases h with h | h
      · simp [hm, h]
      · cases cav <;> simp [hm, h]

/-- Under the mock-routing condition (invalid MAC format or truthy mock
flag) `connectFresh` attempts the simulated client and succeeds. -/
lemma connectFresh_mockish (st1 : RMState) (mac : String) (ringId : Nat)
    (v : Int) (cav rok : Bool) (now : Nat)
    (h : isValidMac mac = false ∨ ¬ v = 0) :
    connectFresh st1 mac ringId v cav rok now
      = ({ st1 with
            clients := insertClient st1.clients mac { kind := ClientKind.mock, connected := true },
            connectedRings := insertConnected st1.connectedRings mac,
            db := updateRingConnection st1.db ringId now }, true, some ClientKind.mock) := by
  unfold connectFresh
  rw [if_pos h]

/-! ### Claim C1 - retry counter, backoff, mock fallback -/

/-- Claim C1, counterexample.  The claim says that failed connects increase a
consecutive-failure counter and that, when it reaches `MAX_RETRY_ATTEMPTS`
(3), the session enters Backoff and the manager retries once with the
simulated client, setting the record's is-simulated flag on success.  On the
code: starting from `stDisc` (a known ring with a valid hardware address and
no client), three consecutive failed `connectToRing` calls leave the manager
state *identical* to the initial one - there is no counter, nothing marks a
backoff - and the next (fourth) attempt still selects the real client, not
the simulated one, and fails again with the state unchanged. -/
theorem c1_retry_counterexample :
    MAX_RETRY_ATTEMPTS = 3
    ∧ (List.range MAX_RETRY_ATTEMPTS).foldl
        (fun s _ => (connectToRing s "00:11:22:33:44:55" 1 true false 0).1) stDisc = stDisc
    ∧ (connectToRing stDisc "00:11:22:33:44:55" 1 true false 0).2.1 = false
    ∧ (connectToRing stDisc "00:11:22:33:44:55" 1 true false 0).2.2 = some ClientKind.real := by
  decide

/-- Claim C1, amended.  The manager keeps no consecutive-failure counter and
has no Backoff state or retry-limit fallback: a failed real-client connect
attempt for a valid-MAC, unflagged device leaves the entire manager state
unchanged and reports failure, the attempt having used the real client;
`MAX_RETRY_ATTEMPTS` is configured but never consulted, so repeated failures
never switch the device to the simulated client. -/
theorem c1_amended_no_retry_state (st : RMState) (mac : String) (ringId now : Nat)
    (info : RingRow)
    (hring : getRing st.db ringId = some info)
    (hcl : lookupClient st.clients mac = none)
    (hmac : isValidMac mac = true)
    (hmock : info.isMock.getD 0 = 0) :
    connectToRing st mac ringId true false now = (st, false, some ClientKind.real) := by
  unfold connectToRing connectFresh
  simp [hring, hcl, hmac, hmock]

/-- Claim C1, witness for `c1_amended_no_retry_state`. -/
theorem c1_amended_witness :
    connectToRing stDisc "00:11:22:33:44:55" 1 true false 0
      = (stDisc, false, some ClientKind.real) :=
  c1_amended_no_retry_state stDisc "00:11:22:33:44:55" 1 0 rowValid rfl rfl (by decide) rfl

/-! ### Claim C2 - routing of invalid-MAC / mock-flagged devices -/

/-- Claim C2, counterexample.  The claim says every connect path routes a
device whose address fails the MAC-format check to the simulated client,
never the real one.  On the presentation-facing path
(`RingManager.connect_ring`) this is false: for the ring `rowMock`, whose
address `"mock-ring-1"` fails the format check, `connectRing` attempts and
stores the *real* client. -/
theorem c2_real_client_counterexample :
    isValidMac "mock-ring-1" = false
    ∧ (connectRing stMock 2 true true 5).2.1 = true
    ∧ (connectRing stMock 2 true true 5).2.2 = some ClientKind.real
    ∧ lookupClient (connectRing stMock 2 true true 5).1.clients "mock-ring-1"
        = some { kind := ClientKind.real, connected := true } := by
  decide

/-- Claim C2, amended.  On the background connect path
(`RingManager._connect_to_ring`, embedded as `connectToRing`) a device whose
address fails the MAC-format check, or whose record carries a truthy mock
flag, is never attempted with the real client (any attempt it makes uses the
simulated client); the presentation-facing `connect_ring` path does not
apply this routing and always uses the real client. -/
theorem c2_amended_mock_routing (st : RMState) (mac : String) (ringId : Nat)
    (cav rok : Bool) (now : Nat) (info : RingRow)
    (hring : getRing st.db ringId = some info)
    (hmockish : isValidMac mac = false ∨ ¬ info.isMock.getD 0 = 0) :
    ¬ (connectToRing st mac ringId cav rok now).2.2 = some ClientKind.real := by
  unfold connectToRing
  rw [hring]
  cases hlk : lookupClient st.clients mac with
  | none => simp [connectFresh_mockish _ _ _ _ _ _ _ hmockish]
  | some c =>
    by_cases hcc : c.connected = true
    · simp [hcc]
    · simp [hcc, connectFresh_mockish _ _ _ _ _ _ _ hmockish]

/-- Claim C2, witness for `c2_amended_mock_routing`. -/
theorem c2_amended_witness :
    ¬ (connectToRing stMock "mock-ring-1" 2 true true 5).2.2 = some ClientKind.real :=
  c2_amended_mock_routing stMock "mock-ring-1" 2 true true 5 rowMock rfl
    (Or.inl (by decide))

/-! ### Claim C3 - zero/absent readings during steady polling -/

/-- Claim C3, confirmed.  In one polling iteration over a connected session
(both in `RingManager._data_collection_loop`, embedded as `collectForRing`,
and in `HeartRateLogger._logger_loop`, embedded as `hrLoggerStep`): the
heart-rate and steps tables each gain exactly the rows described by
`posAppend` - a row only for a read that returned a positive value, so a
zero or absent (or failing) reading is discarded and never written - while
the battery table gains the rows described by `batAppend` - a row for
*every* returned value including zero, with only an absent reading (or a
failing read) discarded. -/
theorem c3_polling_zero_discard (st : RMState) (d : DB) (ringId : Nat) (mac : String)
    (hr stp bat : ReadOutcome) (now : Nat) (c : Client)
    (hc : lookupClient st.clients mac = some c) :
    ((collectForRing st ringId mac false hr stp bat now).db.heartRate
        = st.db.heartRate ++ posAppend ringId hr now)
    ∧ ((collectForRing st ringId mac false hr stp bat now).db.steps
        = st.db.steps ++ posAppend ringId stp now)
    ∧ ((collectForRing st ringId mac false hr stp bat now).db.battery
        = st.db.battery ++ batAppend ringId bat now)
    ∧ ((hrLoggerStep d ringId hr stp bat now).heartRate
        = d.heartRate ++ posAppend ringId hr now)
    ∧ ((hrLoggerStep d ringId hr stp bat now).steps
        = d.steps ++ posAppend ringId stp now)
    ∧ ((hrLoggerStep d ringId hr stp bat now).battery
        = d.battery ++ batAppend ringId bat now) := by
  unfold collectForRing hrLoggerStep
  rw [hc]
  refine ⟨?_, ?_, ?_, ?_, ?_, ?_⟩ <;>
    rcases hr with _ | (_ | vh) <;>
    rcases stp with _ | (_ | vs) <;>
    rcases bat with _ | (_ | vb) <;>
    (try simp [posAppend, batAppend]) <;>
    (try split_ifs) <;>
    simp

/-- Claim C3, witness for `c3_polling_zero_discard`: a zero heart-rate and a
zero steps reading leave those tables unchanged while a zero battery reading
is appended. -/
theorem c3_witness :
    ((collectForRing stRealConn 1 "00:11:22:33:44:55" false
        (ReadOutcome.returns (some 0)) (ReadOutcome.returns (some 0))
        (ReadOutcome.returns (some 0)) 9).db.heartRate
      = stRealConn.db.heartRate ++ posAppend 1 (ReadOutcome.returns (some 0)) 9)
    ∧ ((collectForRing stRealConn 1 "00:11:22:33:44:55" false
        (ReadOutcome.returns (some 0)) (ReadOutcome.returns (some 0))
        (ReadOutcome.returns (some 0)) 9).db.battery
      = stRealConn.db.battery ++ batAppend 1 (ReadOutcome.returns (some 0)) 9) :=
  ⟨(c3_polling_zero_discard stRealConn dbEmpty 1 "00:11:22:33:44:55"
      (ReadOutcome.returns (some 0)) (ReadOutcome.returns (some 0))
      (ReadOutcome.returns (some 0)) 9 { kind := ClientKind.real, connected := true } rfl).1,
   (c3_polling_zero_discard stRealConn dbEmpty 1 "00:11:22:33:44:55"
      (ReadOutcome.returns (some 0)) (ReadOutcome.returns (some 0))
      (ReadOutcome.returns (some 0)) 9 { kind := ClientKind.real, connected := true } rfl).2.2.1⟩

/-! ### Claim C7 - read failures and disconnection -/

/-- Claim C7, counterexample.  The claim says a transport failure in any
single read makes the manager disconnect the client and clear its handle.
On the code: in `stRealConn` (a Polling session with a connected real
client) an iteration in which *all three* reads raise leaves the state
completely unchanged - the client handle is still present, because each
read's failure is absorbed by that read's own `except` handler. -/
theorem c7_read_failure_counterexample :
    collectForRing stRealConn 1 "00:11:22:33:44:55" false
        ReadOutcome.raises ReadOutcome.raises ReadOutcome.raises 9 = stRealConn
    ∧ lookupClient (collectForRing stRealConn 1 "00:11:22:33:44:55" false
        ReadOutcome.raises ReadOutcome.raises ReadOutcome.raises 9).clients
        "00:11:22:33:44:55"
      = some { kind := ClientKind.real, connected := true } := by
  decide

/-- Claim C7, amended.  A transport-level failure of a read operation is
caught by that read's own handler and only logged: whatever the three read
outcomes, the iteration leaves the session's client map unchanged (the
session stays connected).  Only a failure outside the per-read handlers
(event-loop setup/teardown, modelled by `setupFail`) reaches the outer
handler that deletes the client handle. -/
theorem c7_amended_reads_keep_client (st : RMState) (ringId : Nat) (mac : String)
    (hr stp bat : ReadOutcome) (now : Nat) (c : Client)
    (hc : lookupClient st.clients mac = some c) :
    ((collectForRing st ringId mac false hr stp bat now).clients = st.clients)
    ∧ ((collectForRing st ringId mac true hr stp bat now).clients
        = eraseClient st.clients mac) := by
  unfold collectForRing
  rw [hc]
  exact ⟨rfl, rfl⟩

/-- Claim C7, witness for `c7_amended_reads_keep_client`. -/
theorem c7_amended_witness :
    ((collectForRing stRealConn 1 "00:11:22:33:44:55" false
        ReadOutcome.raises (ReadOutcome.returns (some 3)) ReadOutcome.raises 9).clients
      = stRealConn.clients)
    ∧ ((collectForRing stRealConn 1 "00:11:22:33:44:55" true
        ReadOutcome.raises (ReadOutcome.returns (some 3)) ReadOutcome.raises 9).clients
      = eraseClient stRealConn.clients "00:11:22:33:44:55") :=
  c7_amended_reads_keep_client stRealConn 1 "00:11:22:33:44:55"
    ReadOutcome.raises (ReadOutcome.returns (some 3)) ReadOutcome.raises 9
    { kind := ClientKind.real, connected := true } rfl

/-! ### Claim C4 - historical sync and duplicates -/

/-- Claim C4, counterexample.  The claim says historical sync skips samples
it already holds, so syncing the same batch twice leaves the stored count
unchanged.  On the code: syncing the one-entry batch `hdOne` twice into
`stConn` (ring 1 connected, steps table initially empty) stores the same
(ring, kind, timestamp) row twice - after the first run the steps table has
one row, after the second it has two identical rows. -/
theorem c4_duplicate_insert_counterexample :
    (syncHistoricalDataForRing stConn 1 true true true (some hdOne) 7).1.db.steps
      = [{ ringId := 1, value := 50, timestamp := 100 }]
    ∧ (syncHistoricalDataForRing
        (syncHistoricalDataForRing stConn 1 true true true (some hdOne) 7).1
        1 true true true (some hdOne) 7).1.db.steps
      = [{ ringId := 1, value := 50, timestamp := 100 },
         { ringId := 1, value := 50, timestamp := 100 }] := by
  decide

/-- Claim C4, amended.  Historical sync performs no duplicate check at all:
on every run, every usable entry of the batch is appended unconditionally
(with its carried timestamp), independently of what the tables already
contain, so running the sync twice with the same batch appends the batch's
usable entries twice. -/
theorem c4_amended_sync_appends (st : RMState) (ringId : Nat) (info : RingRow)
    (cav rok : Bool) (hd : HistData) (now now2 : Nat) (c : Client)
    (hring : getRing st.db ringId = some info)
    (hmac : ¬ info.macAddress = "")
    (hcl : lookupClient st.clients info.macAddress = some c) :
    ((syncHistoricalDataForRing st ringId cav rok true (some hd) now).1.db.steps
      = st.db.steps ++ (usableEntries hd.stepsHistory).map (entryRow ringId))
    ∧ ((syncHistoricalDataForRing st ringId cav rok true (some hd) now).1.db.heartRate
      = st.db.heartRate ++ (usableEntries hd.heartRateHistory).map (entryRow ringId))
    ∧ ((syncHistoricalDataForRing
          (syncHistoricalDataForRing st ringId cav rok true (some hd) now).1
          ringId cav rok true (some hd) now2).1.db.steps
      = st.db.steps ++ (usableEntries hd.stepsHistory).map (entryRow ringId)
          ++ (usableEntries hd.stepsHistory).map (entryRow ringId)) := by
  have h1 := sync_connected_eq st ringId info cav rok hd now c hring hmac hcl
  have hring2 : getRing (syncHistoricalDataForRing st ringId cav rok true (some hd) now).1.db ringId
      = some info := by
    rw [h1]
    simpa [getRing] using hring
  have hcl2 : lookupClient (syncHistoricalDataForRing st ringId cav rok true (some hd) now).1.clients
      info.macAddress = some c := by
    rw [h1]
    simpa using hcl
  have h2 := sync_connected_eq (syncHistoricalDataForRing st ringId cav rok true (some hd) now).1
    ringId info cav rok hd now2 c hring2 hmac hcl2
  refine ⟨?_, ?_, ?_⟩
  · rw [h1]
  · rw [h1]
  · rw [h2, h1]

/-- Claim C4, witness for `c4_amended_sync_appends`. -/
theorem c4_amended_witness :
    (syncHistoricalDataForRing stConn 1 true true true (some hdOne) 7).1.db.steps
      = stConn.db.steps ++ (usableEntries hdOne.stepsHistory).map (entryRow 1) :=
  (c4_amended_sync_appends stConn 1 rowValid true true hdOne 7 7
    { kind := ClientKind.mock, connected := true } rfl (by decide) rfl).1

/-! ### Claim C5 - sync sample counts, carried timestamps, last-sync update -/

/-- Claim C5, code bug, evaluated at the failing input.  Syncing the batch
`hdBatch` (5 steps entries, 3 heart-rate entries, all new) into `stConn`
does write exactly 8 samples, each with the timestamp it carries - but the
Device Record is left untouched and the call reports *failure*: after the
inserts the code calls `self.db.update_last_sync(ring_id)`, the `Database`
class has no such method (`dbHasUpdateLastSync = false`; the `rings` table
has no last-sync column either), the `AttributeError` is swallowed by the
surrounding handler and `sync_historical_data_for_ring` returns False, so
the claimed advance of the last-sync timestamp never happens. -/
theorem c5_sync_bug_eval :
    (syncHistoricalDataForRing stConn 1 true true true (some hdBatch) 999).1.db.steps
      = [{ ringId := 1, value := 10, timestamp := 101 },
         { ringId := 1, value := 20, timestamp := 102 },
         { ringId := 1, value := 30, timestamp := 103 },
         { ringId := 1, value := 40, timestamp := 104 },
         { ringId := 1, value := 50, timestamp := 105 }]
    ∧ (syncHistoricalDataForRing stConn 1 true true true (some hdBatch) 999).1.db.heartRate
      = [{ ringId := 1, value := 60, timestamp := 201 },
         { ringId := 1, value := 61, timestamp := 202 },
         { ringId := 1, value := 62, timestamp := 203 }]
    ∧ ((syncHistoricalDataForRing stConn 1 true true true (some hdBatch) 999).1.db.steps.length
        + (syncHistoricalDataForRing stConn 1 true true true (some hdBatch) 999).1.db.heartRate.length
       = 8)
    ∧ (syncHistoricalDataForRing stConn 1 true true true (some hdBatch) 999).2 = false
    ∧ dbHasUpdateLastSync = false
    ∧ (syncHistoricalDataForRing stConn 1 true true true (some hdBatch) 999).1.db.rings
        = stConn.db.rings := by
  decide

/-! ### Claim C6 - manual sync on a disconnected session -/

/-- Claim C6, counterexample.  The claim says a sync requested for a
disconnected session fails immediately with a DeviceNotConnected error,
with no state change and no storage writes.  On the code: for `stDisc`
(ring 1 known, no client connected), `sync_historical_data_for_ring` first
*attempts to connect*; in an environment where that connect succeeds it
proceeds to sync - the state changes (a real client handle appears) and a
storage write happens. -/
theorem c6_sync_disconnected_counterexample :
    (syncHistoricalDataForRing stDisc 1 true true true (some hdOne) 3).1.db.steps
      = [{ ringId := 1, value := 50, timestamp := 100 }]
    ∧ lookupClient (syncHistoricalDataForRing stDisc 1 true true true (some hdOne) 3).1.clients
        "00:11:22:33:44:55"
      = some { kind := ClientKind.real, connected := true }
    ∧ ¬ (syncHistoricalDataForRing stDisc 1 true true true (some hdOne) 3).1 = stDisc := by
  decide

/-- Claim C6, amended.  A sync requested for a session with no connected
client does not fail immediately: the manager first attempts a connection
via `connect_ring`.  Only when that connection attempt fails (the real
client library unavailable or the connect unsuccessful) does the call
return failure - and then indeed with the manager state unchanged and no
storage writes.  No DeviceNotConnected error value exists in the code. -/
theorem c6_amended_fail_closed (st : RMState) (ringId : Nat) (info : RingRow)
    (cav rok chh : Bool) (hist : Option HistData) (now : Nat)
    (hring : getRing st.db ringId = some info)
    (hmac : ¬ info.macAddress = "")
    (hcl : lookupClient st.clients info.macAddress = none)
    (henv : cav = false ∨ rok = false) :
    syncHistoricalDataForRing st ringId cav rok chh hist now = (st, false) := by
  have hfail := connectRing_fail st ringId cav rok now henv
  unfold syncHistoricalDataForRing
  simp [hring, hmac, hcl, hfail.1, hfail.2]

/-- Claim C6, witness for `c6_amended_fail_closed`. -/
theorem c6_amended_witness :
    syncHistoricalDataForRing stDisc 1 true false true (some hdOne) 3 = (stDisc, false) :=
  c6_amended_fail_closed stDisc 1 rowValid true false true (some hdOne) 3
    rfl (by decide) rfl (Or.inr rfl)

/-! ### Claim C8 - discovery registration -/

/-- Claim C8, code bug, evaluated at the failing input.  For a scan result
entry named "Colmi R02" - a name that passes the ring-name check - the
scanner loop registers nothing: `scan_for_devices` returns plain dicts and
the loop's `device.name` attribute access raises `AttributeError`
(re-raised even inside the per-device error handler's log f-string), so the
database is returned unchanged with no id.  The registration body itself
(lines 394-401, embedded as `registerRingDevice`), which the claim
describes, would have created exactly one record for the new address had it
been reached. -/
theorem c8_scanner_dict_bug :
    scannerProcessDevice dbEmpty { name := "Colmi R02", address := "AA:BB:CC:DD:EE:FF" } 0
      = (dbEmpty, none)
    ∧ isRingName "Colmi R02" = true
    ∧ (registerRingDevice dbEmpty "Colmi R02" "AA:BB:CC:DD:EE:FF" 0).1.rings
      = [{ id := 1, name := "Colmi R02", macAddress := "AA:BB:CC:DD:EE:FF",
           lastConnected := none, batteryLevel := none, createdAt := 0, isMock := none }]
    ∧ (registerRingDevice dbEmpty "Colmi R02" "AA:BB:CC:DD:EE:FF" 0).2 = 1
    ∧ registerRingDevice
        (registerRingDevice dbEmpty "Colmi R02" "AA:BB:CC:DD:EE:FF" 0).1
        "Colmi R02" "AA:BB:CC:DD:EE:FF" 0
      = ((registerRingDevice dbEmpty "Colmi R02" "AA:BB:CC:DD:EE:FF" 0).1, 1) := by
  decide

/-! ### Claim C9 - Database.remove_ring transaction -/

/-- Claim C9, confirmed.  `Database.remove_ring` deletes, in one
transaction, every heart-rate, steps and battery sample of the ring
together with its ring row, and returns True; when an exception is injected
at any of the four DELETE statements or at the commit (`failAt = some k`,
`k ≤ 4`), the transaction is rolled back, the database is returned exactly
unchanged, and the call returns False. -/
theorem c9_remove_ring_transaction (db : DB) (ringId : Nat) :
    ((removeRing db ringId none).1.heartRate
        = db.heartRate.filter (fun s => decide (¬ s.ringId = ringId))
      ∧ (removeRing db ringId none).1.steps
        = db.steps.filter (fun s => decide (¬ s.ringId = ringId))
      ∧ (removeRing db ringId none).1.battery
        = db.battery.filter (fun s => decide (¬ s.ringId = ringId))
      ∧ (removeRing db ringId none).1.rings
        = db.rings.filter (fun r => decide (¬ r.id = ringId))
      ∧ (removeRing db ringId none).2 = true)
    ∧ (∀ k, k ≤ 4 → removeRing db ringId (some k) = (db, false)) := by
  constructor
  · exact ⟨rfl, rfl, rfl, rfl, rfl⟩
  · intro k hk
    interval_cases k <;> rfl

/-- Claim C9, witness for `c9_remove_ring_transaction`. -/
theorem c9_remove_ring_witness :
    removeRing dbValid 1 (some 2) = (dbValid, false)
    ∧ (removeRing dbValid 1 none).2 = true :=
  ⟨(c9_remove_ring_transaction dbValid 1).2 2 (by decide),
   (c9_remove_ring_transaction dbValid 1).1.2.2.2.2⟩

/-! ### Claim C10 - Database.add_ring on an existing MAC address -/

/-- Claim C10, confirmed.  `Database.add_ring` called with a MAC address
that already exists returns the id of the existing ring and leaves the
database unchanged; consequently, for any names and any MAC address, a
second `add_ring` with the same MAC returns the same id as the first and
changes nothing further, and when the MAC was fresh the first call inserted
exactly one row. -/
theorem c10_add_ring_idempotent (db : DB) (n1 n2 mac : String) (t1 t2 : Nat) :
    (∀ r, getRingByMac db mac = some r → addRing db n1 mac t1 = (db, r.id))
    ∧ (addRing (addRing db n1 mac t1).1 n2 mac t2
        = ((addRing db n1 mac t1).1, (addRing db n1 mac t1).2))
    ∧ (getRingByMac db mac = none →
        (addRing db n1 mac t1).1.rings.length = db.rings.length + 1) := by
  refine ⟨?_, ?_, ?_⟩
  · intro r h
    simp [addRing, h]
  · cases h : getRingByMac db mac with
    | some r => simp [addRing, h]
    | none =>
      have h2 : getRingByMac
          { rings := db.rings ++
              [{ id := db.nextId, name := n1, macAddress := mac,
                 lastConnected := none, batteryLevel := none, createdAt := t1,
                 isMock := none }],
            heartRate := db.heartRate, steps := db.steps, battery := db.battery,
            nextId := db.nextId + 1 } mac
          = some { id := db.nextId, name := n1, macAddress := mac,
                   lastConnected := none, batteryLevel := none, createdAt := t1,
                   isMock := none } := by
        unfold getRingByMac at h ⊢
        dsimp only
        rw [find?_append_of_none _ _ _ h]
        simp
      simp [addRing, h, h2]
  · intro h
    simp [addRing, h]

/-- Claim C10, witness for `c10_add_ring_idempotent`. -/
theorem c10_add_ring_witness :
    addRing dbValid "Other Name" "00:11:22:33:44:55" 9 = (dbValid, 1)
    ∧ (addRing dbEmpty "Colmi R02" "AA:00:00:00:00:01" 1).1.rings.length
      = dbEmpty.rings.length + 1 :=
  ⟨(c10_add_ring_idempotent dbValid "Other Name" "x" "00:11:22:33:44:55" 9 0).1 rowValid rfl,
   (c10_add_ring_idempotent dbEmpty "Colmi R02" "B" "AA:00:00:00:00:01" 1 2).2.2 rfl⟩

end Zeddring
